import Mathlib

/-!
Shallow embedding of the wm-agent trigger/behavior-analysis pipeline.

The definitions below are translated from the Python sources:
  src/models/action.py        (ActionType, PlayerAction and its predicates)
  src/models/player.py        (Player, increment_failures, reset_failures, is_high_value)
  src/models/trigger.py       (TriggerType, TriggerCondition, DEFAULT_TRIGGERS)
  src/data/data_manager.py    (DataManager, add_action, get_player_actions)
  src/triggers/trigger_engine.py   (condition evaluation, force_check_player,
                                    cooldown bookkeeping of the scheduled path)
  src/triggers/behavior_analyzer.py (_assess_risk_level)

Modelling conventions: timestamps are rationals measured in minutes; Python
ints are Int, Python floats are Rat; Optional fields are Option; a Python
`if x:` truthiness test on an int is modelled as a test against 0 and on an
Optional as a test for none-or-zero.  Dead debugging prints are dropped; the
behavioural content of each function is kept as written, including the
initialisation of the window failure counter at 10 in
trigger_engine.py line 355 and the commented-out result guard in
force_check_player (line 637), both of which are the subject of claims.
-/

namespace WMAgent

/-- Action type enumeration, from src/models/action.py (class ActionType). -/
inductive ActionType where
  | attack_city
  | attack_player
  | defend
  | battle_win
  | battle_lose
  | skill_use
  | chat_world
  | chat_guild
  | chat_private
  | join_guild
  | leave_guild
  | login
  | logout
  | open_shop
  | open_inventory
  | open_guide
  | game_exit
  | purchase
  | sell
  | trade
  | card_draw
  | level_up
  | complete_quest
  | upgrade_equipment
  | rage_quit
  | complain
  | idle_timeout
  deriving DecidableEq, Repr

/-- Player action record, from src/models/action.py (class PlayerAction).
The fields not consulted by any verified operation (value, location,
session_id, metadata) are omitted. Timestamps are rational minutes. -/
structure PlayerAction where
  actionId : String
  playerId : String
  actionType : ActionType
  timestamp : ℚ
  target : Option String := none
  result : Option String := none
  deriving DecidableEq, Repr

/-- PlayerAction.is_failure: the action type is in the failure set, or the
result field equals "failure". -/
def PlayerAction.isFailure (a : PlayerAction) : Bool :=
  decide (a.actionType = .battle_lose ∨ a.actionType = .rage_quit ∨
          a.actionType = .complain ∨ a.actionType = .attack_city ∨
          a.actionType = .idle_timeout) ||
  decide (a.result = some "failure")

/-- PlayerAction.is_success: the action type is in the success set, or the
result field equals "success". -/
def PlayerAction.isSuccess (a : PlayerAction) : Bool :=
  decide (a.actionType = .battle_win ∨ a.actionType = .level_up ∨
          a.actionType = .complete_quest ∨ a.actionType = .purchase) ||
  decide (a.result = some "success")

/-- PlayerAction.is_social_activity. -/
def PlayerAction.isSocialActivity (a : PlayerAction) : Bool :=
  decide (a.actionType = .chat_world ∨ a.actionType = .chat_guild ∨
          a.actionType = .chat_private ∨ a.actionType = .join_guild)

/-- PlayerAction.is_help_seeking. -/
def PlayerAction.isHelpSeeking (a : PlayerAction) : Bool :=
  decide (a.actionType = .open_guide ∨ a.actionType = .chat_world ∨
          a.actionType = .complain)

/-- Player status enumeration, from src/models/player.py (class PlayerStatus). -/
inductive PlayerStatus where
  | active
  | frustrated
  | satisfied
  | churning
  | inactive
  deriving DecidableEq, Repr

/-- Player aggregate, from src/models/player.py (class Player).  Only the
fields read or written by the verified operations are kept; the emotion,
bot and churn bookkeeping fields are not consulted by any claim. -/
structure Player where
  playerId : String
  username : String
  vipLevel : ℤ := 0
  level : ℤ := 1
  totalSpent : ℚ := 0
  currentStatus : PlayerStatus := .active
  frustrationLevel : ℤ := 0
  consecutiveFailures : ℤ := 0
  deriving DecidableEq, Repr

/-- Player.update_status (the recording of the change reason into
custom_attributes touches no field any claim depends on and is omitted). -/
def Player.updateStatus (p : Player) (s : PlayerStatus) : Player :=
  { p with currentStatus := s }

/-- Player.increment_failures: bump the streak; from the second consecutive
failure on, raise frustration by 2 (clamped at 10); from the third on, mark
the player frustrated. -/
def Player.incrementFailures (p : Player) : Player :=
  let p := { p with consecutiveFailures := p.consecutiveFailures + 1 }
  if 2 ≤ p.consecutiveFailures then
    let p := { p with frustrationLevel := min 10 (p.frustrationLevel + 2) }
    if 3 ≤ p.consecutiveFailures then p.updateStatus .frustrated else p
  else p

/-- Player.reset_failures: clear the streak and, when frustration is
positive, lower it by 1 (clamped at 0). -/
def Player.resetFailures (p : Player) : Player :=
  let p := { p with consecutiveFailures := 0 }
  if 0 < p.frustrationLevel then
    { p with frustrationLevel := max 0 (p.frustrationLevel - 1) }
  else p

/-- Player.is_high_value: VIP level at least 3 or lifetime spend at least 100. -/
def Player.isHighValue (p : Player) : Bool :=
  decide (3 ≤ p.vipLevel) || decide (100 ≤ p.totalSpent)

/-- Trigger type enumeration, from src/models/trigger.py (class TriggerType). -/
inductive TriggerType where
  | consecutive_failures
  | emotional_decline
  | help_seeking
  | high_value_risk
  | social_isolation
  | emotion_intervention
  | bot_detection
  | churn_risk
  deriving DecidableEq, Repr

/-- Trigger condition configuration, from src/models/trigger.py
(class TriggerCondition), with the source's defaults.  Note that the class
defines no emotional_threshold field: the read of that attribute in
trigger_engine.py line 413 raises AttributeError at runtime. -/
structure TriggerCondition where
  triggerType : TriggerType
  name : String
  description : String
  minFailures : ℤ := 2
  timeWindowMinutes : ℤ := 5
  requiredActionTypes : List ActionType := []
  excludedActionTypes : List ActionType := []
  minVipLevel : Option ℤ := none
  minTotalSpent : Option ℚ := none
  maxFrustrationLevel : ℤ := 10
  minEmotionalImpact : ℤ := -5
  priority : ℤ := 5
  cooldownHours : ℤ := 1
  deriving DecidableEq, Repr

/-- First entry of DEFAULT_TRIGGERS in src/models/trigger.py: the
consecutive-attack-failure condition. -/
def defaultConsecutiveFailuresTrigger : TriggerCondition :=
  { triggerType := .consecutive_failures
    name := "连续攻城失败"
    description := "玩家在5分钟内连续2次攻城失败"
    minFailures := 1
    timeWindowMinutes := 20
    requiredActionTypes := [.attack_city]
    priority := 8 }

/-- Stable insertion of an action into a list already sorted by descending
timestamp: the new element goes after every element with an equal or larger
timestamp, as Python's stable sorted(..., reverse=True) places it. -/
def insertDesc (a : PlayerAction) : List PlayerAction → List PlayerAction
  | [] => [a]
  | b :: bs => if b.timestamp < a.timestamp then a :: b :: bs else b :: insertDesc a bs

/-- sorted(actions, key=lambda x: x.timestamp, reverse=True): stable sort by
descending timestamp. -/
def sortByTimestampDesc (l : List PlayerAction) : List PlayerAction :=
  l.foldl (fun acc a => insertDesc a acc) []

/-- TriggerEngine._check_player_filters: the VIP-level and total-spent
filters, each guarded by a Python truthiness test on the optional bound
(None and 0 both disable the filter). -/
def checkPlayerFilters (p : Player) (c : TriggerCondition) : Bool :=
  if (match c.minVipLevel with
      | none => false
      | some v => decide (v ≠ 0) && decide (p.vipLevel < v)) then false
  else if (match c.minTotalSpent with
      | none => false
      | some v => decide (v ≠ 0) && decide (p.totalSpent < v)) then false
  else true

/-- The consecutive-failure count of the claims and of the loop starting at
trigger_engine.py line 357: walk the window newest-first and count failure
actions, stopping at the first non-failure. -/
def freshConsecutiveFailures (actions : List PlayerAction) : ℕ :=
  ((sortByTimestampDesc actions).takeWhile (fun a => a.isFailure)).length

/-- TriggerEngine._check_consecutive_failures.  The running counter of the
window walk is initialised at 10 in the source (trigger_engine.py
line 355), which the embedding reproduces as written. -/
def checkConsecutiveFailures (now : ℚ) (p : Player) (actions : List PlayerAction)
    (c : TriggerCondition) : Bool :=
  if p.consecutiveFailures < c.minFailures then false
  else if c.timeWindowMinutes ≠ 0 then
    let recent := actions.filter (fun a => now - c.timeWindowMinutes ≤ a.timestamp)
    if c.requiredActionTypes.any
        (fun rt => ! recent.any (fun a => decide (a.actionType = rt))) then false
    else
      let windowConsecutive : ℤ := 10 + freshConsecutiveFailures recent
      decide (c.minFailures ≤ windowConsecutive)
  else true

/-- The emotional_analysis sub-dictionary of a behavior-analysis result, as
read by _check_emotional_decline: dict.get lookups are Option-valued
(the sub-dictionary is empty when the analyzer saw no actions in its own
window, so both gets can yield none). -/
structure EmotionalAnalysis where
  currentState : Option String
  trajectory : Option String
  currentScore : ℚ
  deriving DecidableEq, Repr

/-- The analyzer outputs consulted during condition evaluation:
analyze_player_behavior's result for _check_emotional_decline (none models
the error dictionary) and get_real_time_risk_score's value for
_check_high_value_risk. -/
structure AnalyzerEnv where
  emotionalAnalysis : Option EmotionalAnalysis
  realTimeRiskScore : ℚ
  deriving DecidableEq, Repr

/-- TriggerEngine._check_emotional_decline.  After the state and trajectory
checks the source reads condition.emotional_threshold, a field that
TriggerCondition does not define, so that path raises AttributeError; the
exception is modelled as Except.error and is caught by the caller
(_evaluate_trigger_condition), which turns it into False. -/
def checkEmotionalDecline (actions : List PlayerAction)
    (analysis : Option EmotionalAnalysis) : Except Unit Bool :=
  if actions = [] then .ok false
  else match analysis with
    | none => .ok false
    | some ea =>
      if ea.currentState = some "frustrated" ∨ ea.currentState = some "declining" then
        .ok true
      else if ea.trajectory = some "declining" then .ok true
      else .error ()

/-- TriggerEngine._check_help_seeking: at least one help-seeking action in
the window (time_window_minutes or 30, by Python truthiness). -/
def checkHelpSeeking (now : ℚ) (actions : List PlayerAction)
    (c : TriggerCondition) : Bool :=
  if actions = [] then false
  else
    let window : ℤ := if c.timeWindowMinutes ≠ 0 then c.timeWindowMinutes else 30
    let recent := actions.filter (fun a => now - window ≤ a.timestamp)
    decide (0 < (recent.filter (fun a => a.isHelpSeeking)).length)

/-- TriggerEngine._check_high_value_risk: high-value player with a
real-time risk score of at least 40. -/
def checkHighValueRisk (p : Player) (riskScore : ℚ) : Bool :=
  p.isHighValue && decide (40 ≤ riskScore)

/-- TriggerEngine._check_social_isolation: an empty or short window (fewer
than 10 actions) never fires; otherwise the social fraction must be below
5% and the window must hold strictly more than 10 actions. -/
def checkSocialIsolation (actions : List PlayerAction) : Bool :=
  if actions = [] ∨ actions.length < 10 then false
  else
    let socialActions := actions.filter (fun a => a.isSocialActivity)
    decide ((socialActions.length : ℚ) / (actions.length : ℚ) < 1/20) &&
    decide (10 < actions.length)

/-- TriggerEngine._evaluate_trigger_condition: player filters first, then
dispatch on the trigger type; the three trigger types without a checker
fall to the unknown-type branch and yield False, and an AttributeError
escaping _check_emotional_decline is caught here and yields False. -/
def evaluateTriggerCondition (now : ℚ) (env : AnalyzerEnv) (p : Player)
    (actions : List PlayerAction) (c : TriggerCondition) : Bool :=
  if ! checkPlayerFilters p c then false
  else match c.triggerType with
    | .consecutive_failures => checkConsecutiveFailures now p actions c
    | .emotional_decline =>
        match checkEmotionalDecline actions env.emotionalAnalysis with
        | .ok b => b
        | .error _ => false
    | .help_seeking => checkHelpSeeking now actions c
    | .high_value_risk => checkHighValueRisk p env.realTimeRiskScore
    | .social_isolation => checkSocialIsolation actions
    | _ => false

/-- First-match lookup in an association list, the model of a Python dict
read self.players.get(player_id). -/
def lookupPlayer : List (String × Player) → String → Option Player
  | [], _ => none
  | (k, v) :: rest, pid => if k = pid then some v else lookupPlayer rest pid

/-- Write-through of a mutated player object: every binding of the key now
references the updated object. -/
def updatePlayers : List (String × Player) → String → Player → List (String × Player)
  | [], _, _ => []
  | (k, v) :: rest, pid, q =>
    (if k = pid then (k, q) else (k, v)) :: updatePlayers rest pid q

/-- The DataManager state consulted by the verified operations: the player
registry and the append-only action log (trigger events and mail are not
read by any claim). -/
structure DataManager where
  players : List (String × Player)
  actionHistory : List PlayerAction
  deriving Repr

/-- DataManager.get_player. -/
def DataManager.getPlayer (dm : DataManager) (pid : String) : Option Player :=
  lookupPlayer dm.players pid

/-- DataManager.get_player_actions: filter the log by player, optionally by
a time window (skipped for a 0 window by Python truthiness), sort by
descending timestamp and truncate (the unused action_types filter of the
source is not modelled; every verified caller passes it as None). -/
def DataManager.getPlayerActions (dm : DataManager) (pid : String) (limit : ℕ)
    (timeWindowMinutes : Option ℚ) (now : ℚ) : List PlayerAction :=
  let pa := dm.actionHistory.filter (fun a => decide (a.playerId = pid))
  let pa := match timeWindowMinutes with
    | some w => if w ≠ 0 then pa.filter (fun a => now - w ≤ a.timestamp) else pa
    | none => pa
  (sortByTimestampDesc pa).take limit

/-- DataManager.add_action: append to the log and, when the player exists,
bump the streak on a failure action, reset it on a success action, and
leave it untouched otherwise. -/
def DataManager.addAction (dm : DataManager) (a : PlayerAction) : DataManager :=
  let dm := { dm with actionHistory := dm.actionHistory ++ [a] }
  match lookupPlayer dm.players a.playerId with
  | none => dm
  | some p =>
    let q := if a.isFailure then p.incrementFailures
             else if a.isSuccess then p.resetFailures
             else p
    { dm with players := updatePlayers dm.players a.playerId q }

theorem updatePlayers_cons (k : String) (v : Player) (rest : List (String × Player))
    (pid : String) (q : Player) :
    updatePlayers ((k, v) :: rest) pid q =
      (if k = pid then (k, q) else (k, v)) :: updatePlayers rest pid q := rfl

/-- A TriggerEvent as assembled by the engine (trigger_engine.py): the
snapshot fields are the ones written into player_status_snapshot; the
event_id string (player, condition and integral timestamp concatenated) is
derived from fields already present and is omitted. -/
structure TriggerEventM where
  eventPlayerId : String
  conditionName : String
  triggeredAt : ℚ
  triggeringActions : List PlayerAction
  snapLevel : ℤ
  snapVipLevel : ℤ
  snapConsecutiveFailures : ℤ
  snapFrustrationLevel : ℤ
  deriving DecidableEq, Repr

/-- The trigger time of an event: now when there are no recent actions,
else the maximum timestamp among the five most recent ones. -/
def eventTriggerTime (now : ℚ) (recent : List PlayerAction) : ℚ :=
  match (recent.take 5).map (fun a => a.timestamp) with
  | [] => now
  | t :: ts => ts.foldl max t

/-- TriggerEngine.force_check_player.  For each registered condition the
source computes the player filters and the condition result, but the guard
on the result (line 637) is commented out, so an event is appended for
every condition that passes the player filters, whatever the evaluation
returned; the per-(player, condition) trigger history is never touched on
this path. -/
def forceCheckPlayer (now : ℚ) (dm : DataManager) (env : AnalyzerEnv)
    (conditions : List TriggerCondition) (pid : String) : List TriggerEventM :=
  match dm.getPlayer pid with
  | none => []
  | some p =>
    let recent := dm.getPlayerActions pid 50 (some 120) now
    conditions.filterMap (fun c =>
      if checkPlayerFilters p c then
        let _condResult := evaluateTriggerCondition now env p recent c
        some { eventPlayerId := pid
               conditionName := c.name
               triggeredAt := eventTriggerTime now recent
               triggeringActions := recent.take 5
               snapLevel := p.level
               snapVipLevel := p.vipLevel
               snapConsecutiveFailures := p.consecutiveFailures
               snapFrustrationLevel := p.frustrationLevel }
      else none)

/-- BehaviorAnalyzer._assess_risk_level, risk score part: the additive
point score over the player's streak and frustration fields, the emotional
state and trajectory produced by _analyze_emotional_trajectory, and the
activity/social shape of the action window, scaled by 1.2 for high-value
players and clamped to [0, 100]. -/
def assessRiskScore (now : ℚ) (p : Player) (actions : List PlayerAction)
    (currentState trajectory : String) : ℚ :=
  let s1 : ℚ := if 3 ≤ p.consecutiveFailures then 30
                else if 2 ≤ p.consecutiveFailures then 15 else 0
  let s2 : ℚ := (p.frustrationLevel : ℚ) * 5
  let s3 : ℚ := if currentState = "frustrated" then 20
                else if currentState = "declining" then 15 else 0
  let s4 : ℚ := if trajectory = "declining" then 15 else 0
  let recent := actions.filter (fun a => now - 120 ≤ a.timestamp)
  let s5 : ℚ := if recent.length = 0 ∧ 5 < actions.length then 25
                else if recent.length < 3 ∧ 10 < actions.length then 10 else 0
  let socialActions := actions.filter (fun a => a.isSocialActivity)
  let s6 : ℚ := if socialActions.length = 0 ∧ 10 < actions.length then 10 else 0
  let base := s1 + s2 + s3 + s4 + s5 + s6
  let adjusted := if p.isHighValue then base * (12/10) else base
  min 100 (max 0 adjusted)

/-- BehaviorAnalyzer._assess_risk_level, bucketing of the clamped score. -/
def riskLevelOf (s : ℚ) : String :=
  if 70 ≤ s then "critical"
  else if 50 ≤ s then "high"
  else if 30 ≤ s then "medium"
  else "low"

/-!
Cooldown bookkeeping of the scheduled path, for one (player, condition)
pair.  A poll cycle (TriggerEngine._perform_check_cycle) at time t does, in
order: _should_check_condition against the pair's fire history, the
condition evaluation (abstracted to a boolean input, false also covering a
cycle that skips the player), _fire_trigger appending t to the history on a
fire, and _cleanup_trigger_history discarding entries older than 24 hours
(1440 minutes).  Times are rational minutes and the cooldown is
cooldown_hours converted to minutes.
-/

/-- max(last_trigger_times): Python max over a nonempty list. -/
def listMax (x : ℚ) (xs : List ℚ) : ℚ := xs.foldl max x

/-- TriggerEngine._should_check_condition for one pair: always check when
the cooldown is not positive or there is no recorded fire; otherwise check
only once the cooldown has elapsed since the latest recorded fire. -/
def shouldCheck (cd : ℚ) (h : List ℚ) (t : ℚ) : Bool :=
  if cd ≤ 0 then true
  else match h with
    | [] => true
    | x :: xs => decide (listMax x xs + cd ≤ t)

/-- TriggerEngine._cleanup_trigger_history for one pair at cycle time t:
keep the fire times of the last 24 hours. -/
def cleanupHistory (t : ℚ) (h : List ℚ) : List ℚ :=
  h.filter (fun x => decide (t - 1440 ≤ x))

/-- One poll cycle acting on the pair's fire history: the cycle input is
the cycle time together with whether the condition evaluates true. -/
def stepHistory (cd : ℚ) (h : List ℚ) (te : ℚ × Bool) : List ℚ :=
  cleanupHistory te.1 (if shouldCheck cd h te.1 && te.2 then h ++ [te.1] else h)

/-- The fire times the scheduled path produces for the pair along a
sequence of poll cycles, starting from history h. -/
def fireTimes (cd : ℚ) (h : List ℚ) : List (ℚ × Bool) → List ℚ
  | [] => []
  | te :: rest =>
    if shouldCheck cd h te.1 && te.2 then
      te.1 :: fireTimes cd (stepHistory cd h te) rest
    else
      fireTimes cd (stepHistory cd h te) rest

/-- An application of increment_failures or reset_failures. -/
inductive FailureOp where
  | increment
  | reset
  deriving DecidableEq, Repr

/-- A finite sequence of increment_failures / reset_failures calls. -/
def applyFailureOps : List FailureOp → Player → Player
  | [], p => p
  | .increment :: ops, p => applyFailureOps ops p.incrementFailures
  | .reset :: ops, p => applyFailureOps ops p.resetFailures

/-- A fixed analyzer environment for concrete checks: the analysis errored
and the real-time risk score is 0. -/
def sampleEnv : AnalyzerEnv := { emotionalAnalysis := none, realTimeRiskScore := 0 }

section Theorems

/-! ### Helper lemmas -/

theorem incrementFailures_frustration_range (p : Player)
    (h0 : 0 ≤ p.frustrationLevel) (h1 : p.frustrationLevel ≤ 10) :
    0 ≤ p.incrementFailures.frustrationLevel ∧
      p.incrementFailures.frustrationLevel ≤ 10 := by
  unfold Player.incrementFailures Player.updateStatus
  dsimp only
  split_ifs <;> simp <;> omega

theorem resetFailures_frustration_range (p : Player)
    (h0 : 0 ≤ p.frustrationLevel) (h1 : p.frustrationLevel ≤ 10) :
    0 ≤ p.resetFailures.frustrationLevel ∧ p.resetFailures.frustrationLevel ≤ 10 := by
  unfold Player.resetFailures
  dsimp only
  split_ifs <;> simp <;> omega

theorem resetFailures_consecutive_eq_zero (p : Player) :
    p.resetFailures.consecutiveFailures = 0 := by
  unfold Player.resetFailures
  dsimp only
  split_ifs <;> rfl

theorem lookupPlayer_updatePlayers (ps : List (String × Player)) (pid : String)
    (p q : Player) (h : lookupPlayer ps pid = some p) :
    lookupPlayer (updatePlayers ps pid q) pid = some q := by
  induction ps with
  | nil => simp [lookupPlayer] at h
  | cons kv rest ih =>
    obtain ⟨k, v⟩ := kv
    rw [updatePlayers_cons]
    by_cases hk : k = pid
    · subst hk
      rw [if_pos rfl]
      simp [lookupPlayer]
    · rw [if_neg hk]
      simp only [lookupPlayer, if_neg hk] at h ⊢
      exact ih h

/-! ### C10 -/

/-- C10: the classification predicates overlap: every ATTACK_CITY action is
a failure action whatever its result field holds, so an ATTACK_CITY action
whose result is "success" is simultaneously a failure and a success. -/
theorem attackCity_failure_and_success (a : PlayerAction)
    (h : a.actionType = .attack_city) :
    a.isFailure = true ∧ (a.result = some "success" → a.isSuccess = true) := by
  refine ⟨by simp [PlayerAction.isFailure, h], fun hr => ?_⟩
  simp [PlayerAction.isSuccess, hr]

/-- Witness for C10 at a concrete ATTACK_CITY action with result "success". -/
theorem attackCity_failure_and_success_witness :
    PlayerAction.isFailure
        { actionId := "a1", playerId := "p1", actionType := .attack_city,
          timestamp := 0, result := some "success" } = true ∧
      PlayerAction.isSuccess
        { actionId := "a1", playerId := "p1", actionType := .attack_city,
          timestamp := 0, result := some "success" } = true := by
  have h := attackCity_failure_and_success
    { actionId := "a1", playerId := "p1", actionType := .attack_city,
      timestamp := 0, result := some "success" } rfl
  exact ⟨h.1, h.2 rfl⟩

/-! ### C5 -/

/-- C5: frustration_level stays inside [0, 10] across any finite sequence
of increment_failures / reset_failures operations, whenever it starts in
that range. -/
theorem frustrationLevel_stays_in_range (ops : List FailureOp) (p : Player)
    (h0 : 0 ≤ p.frustrationLevel) (h1 : p.frustrationLevel ≤ 10) :
    0 ≤ (applyFailureOps ops p).frustrationLevel ∧
      (applyFailureOps ops p).frustrationLevel ≤ 10 := by
  induction ops generalizing p with
  | nil => exact ⟨h0, h1⟩
  | cons op ops ih =>
    cases op with
    | increment =>
      have hb := incrementFailures_frustration_range p h0 h1
      exact ih p.incrementFailures hb.1 hb.2
    | reset =>
      have hb := resetFailures_frustration_range p h0 h1
      exact ih p.resetFailures hb.1 hb.2

/-- Witness for C5: a concrete player at frustration 5 put through an
increment followed by a reset stays in range. -/
theorem frustrationLevel_stays_in_range_witness :
    0 ≤ (applyFailureOps [.increment, .reset]
          { playerId := "p1", username := "u", frustrationLevel := 5,
            consecutiveFailures := 1 }).frustrationLevel ∧
      (applyFailureOps [.increment, .reset]
          { playerId := "p1", username := "u", frustrationLevel := 5,
            consecutiveFailures := 1 }).frustrationLevel ≤ 10 :=
  frustrationLevel_stays_in_range [.increment, .reset]
    { playerId := "p1", username := "u", frustrationLevel := 5,
      consecutiveFailures := 1 } (by decide) (by decide)

/-! ### C3 -/

/-- C3: a CONSECUTIVE_FAILURES condition evaluates to false for every
player whose live consecutive_failures field is strictly below the
condition's min_failures, whatever the analyzer environment and action
window hold. -/
theorem consecutiveFailures_below_min_never_fires (now : ℚ) (env : AnalyzerEnv)
    (p : Player) (actions : List PlayerAction) (c : TriggerCondition)
    (ht : c.triggerType = .consecutive_failures)
    (hlt : p.consecutiveFailures < c.minFailures) :
    evaluateTriggerCondition now env p actions c = false := by
  unfold evaluateTriggerCondition
  split
  · rfl
  · rw [ht]
    simp [checkConsecutiveFailures, hlt]

/-- Witness for C3: the default consecutive-failure condition
(min_failures 1) does not fire for a fresh player with 0 failures. -/
theorem consecutiveFailures_below_min_never_fires_witness :
    defaultConsecutiveFailuresTrigger.triggerType = .consecutive_failures ∧
      ({ playerId := "p1", username := "u" } : Player).consecutiveFailures <
        defaultConsecutiveFailuresTrigger.minFailures ∧
      evaluateTriggerCondition 0 sampleEnv { playerId := "p1", username := "u" }
        [] defaultConsecutiveFailuresTrigger = false :=
  ⟨rfl, by decide,
    consecutiveFailures_below_min_never_fires 0 sampleEnv
      { playerId := "p1", username := "u" } [] defaultConsecutiveFailuresTrigger
      rfl (by decide)⟩

/-! ### C8 -/

/-- A defend action (neither social, failure nor success) at a given time. -/
def defendAt (t : ℚ) : PlayerAction :=
  { actionId := "a", playerId := "p1", actionType := .defend, timestamp := t }

/-- A window of exactly ten non-social actions. -/
def tenDefends : List PlayerAction :=
  [defendAt 0, defendAt 1, defendAt 2, defendAt 3, defendAt 4,
   defendAt 5, defendAt 6, defendAt 7, defendAt 8, defendAt 9]

/-- Counterexample to C8 as stated: a window of exactly 10 actions none of
which are social does not fire the SOCIAL_ISOLATION check (the source
requires strictly more than 10 actions). -/
theorem socialIsolation_ten_actions_no_fire :
    tenDefends.length = 10 ∧
      (tenDefends.filter (fun a => a.isSocialActivity)).length = 0 ∧
      checkSocialIsolation tenDefends = false := by
  refine ⟨by decide, by decide, ?_⟩
  norm_num [checkSocialIsolation, tenDefends, defendAt, PlayerAction.isSocialActivity]

/-- C8 amended: SOCIAL_ISOLATION fires exactly when the window holds
strictly more than 10 actions and the social fraction is below 5%; in
particular it does not fire at exactly 10 actions. -/
theorem socialIsolation_fires_iff (actions : List PlayerAction) :
    checkSocialIsolation actions = true ↔
      10 < actions.length ∧
        ((actions.filter (fun a => a.isSocialActivity)).length : ℚ) /
            (actions.length : ℚ) < 1/20 := by
  unfold checkSocialIsolation
  split_ifs with h
  · simp only [Bool.false_eq_true, false_iff, not_and]
    intro hlen
    rcases h with h | h
    · rw [h] at hlen; simp at hlen
    · omega
  · simp only [Bool.and_eq_true, decide_eq_true_eq]
    exact and_comm

/-! ### C6 -/

/-- A registry holding one player with a streak of five failures. -/
def dmFiveFails : DataManager :=
  { players := [("p1", { playerId := "p1", username := "u", consecutiveFailures := 5 })],
    actionHistory := [] }

/-- Counterexample to C6 as stated: a defend action with no result is not a
failure action, yet adding it leaves consecutive_failures at 5 (only
success actions reset the streak; other non-failure actions leave it
untouched). -/
theorem addAction_nonfailure_not_reset :
    (defendAt 0).isFailure = false ∧
      Option.map Player.consecutiveFailures
        ((dmFiveFails.addAction (defendAt 0)).getPlayer "p1") = some 5 ∧
      (5 : ℤ) ≠ 0 := by
  exact ⟨by decide, rfl, by decide⟩

/-- C6 amended: after add_action with a non-failure action by a known
player, consecutive_failures is 0 when the action is a success action, and
is unchanged otherwise. -/
theorem addAction_nonfailure_streak (dm : DataManager) (a : PlayerAction) (p : Player)
    (hp : dm.getPlayer a.playerId = some p) (hf : a.isFailure = false) :
    Option.map Player.consecutiveFailures ((dm.addAction a).getPlayer a.playerId) =
      some (if a.isSuccess then 0 else p.consecutiveFailures) := by
  have hp' : lookupPlayer dm.players a.playerId = some p := hp
  have hq : (dm.addAction a).players =
      updatePlayers dm.players a.playerId
        (if a.isSuccess then p.resetFailures else p) := by
    unfold DataManager.addAction
    dsimp only
    rw [hp', hf]
    by_cases hs : a.isSuccess = true
    · rw [hs]; simp
    · rw [Bool.eq_false_iff.mpr hs]; simp
  unfold DataManager.getPlayer
  rw [hq, lookupPlayer_updatePlayers dm.players a.playerId p _ hp']
  by_cases hs : a.isSuccess = true
  · rw [hs]; simp [resetFailures_consecutive_eq_zero]
  · rw [Bool.eq_false_iff.mpr hs]; simp

/-- A battle win by the player of dmFiveFails. -/
def winAction : PlayerAction :=
  { actionId := "w1", playerId := "p1", actionType := .battle_win, timestamp := 0 }

/-- Witness for the amended C6: adding a battle win for the five-failure
player yields a streak of 0 (the success branch of the amended claim). -/
theorem addAction_nonfailure_streak_witness :
    dmFiveFails.getPlayer winAction.playerId =
        some { playerId := "p1", username := "u", consecutiveFailures := 5 } ∧
      winAction.isFailure = false ∧
      Option.map Player.consecutiveFailures
          ((dmFiveFails.addAction winAction).getPlayer winAction.playerId) =
        some (if winAction.isSuccess then 0
              else (5 : ℤ)) :=
  ⟨rfl, by decide,
    addAction_nonfailure_streak dmFiveFails winAction
      { playerId := "p1", username := "u", consecutiveFailures := 5 } rfl (by decide)⟩

/-! ### C9 -/

/-- C9: for a high-value player with a streak of 3 and frustration 8 whose
window holds no action in the last two hours, the risk assessment yields a
score of at least 70 and the level "critical", whatever the emotional
state, trajectory and the rest of the window. -/
theorem highValue_risk_score_critical (now : ℚ) (p : Player)
    (actions : List PlayerAction) (currentState trajectory : String)
    (hv : p.isHighValue = true) (hcf : p.consecutiveFailures = 3)
    (hfl : p.frustrationLevel = 8)
    (hrec : (actions.filter (fun a => now - 120 ≤ a.timestamp)).length = 0) :
    70 ≤ assessRiskScore now p actions currentState trajectory ∧
      riskLevelOf (assessRiskScore now p actions currentState trajectory) =
        "critical" := by
  have key : 70 ≤ assessRiskScore now p actions currentState trajectory := by
    unfold assessRiskScore
    dsimp only
    rw [hcf, hfl, hv, hrec]
    split_ifs <;>
      first
        | omega
        | (exact absurd rfl (by assumption))
        | norm_num
  exact ⟨key, by unfold riskLevelOf; rw [if_pos key]⟩

/-- The concrete VIP player of the C9 witness. -/
def vipPlayer : Player :=
  { playerId := "v1", username := "v", vipLevel := 3, consecutiveFailures := 3,
    frustrationLevel := 8 }

/-- Witness for C9 at a concrete VIP player with an empty window. -/
theorem highValue_risk_score_critical_witness :
    vipPlayer.isHighValue = true ∧
      70 ≤ assessRiskScore 0 vipPlayer [] "stable" "stable" ∧
      riskLevelOf (assessRiskScore 0 vipPlayer [] "stable" "stable") = "critical" :=
  have h := highValue_risk_score_critical 0 vipPlayer [] "stable" "stable"
    (by decide) rfl rfl rfl
  ⟨by decide, h.1, h.2⟩

/-! ### C1 -/

/-- The window of the C1 evidence: a battle win at minute 999 followed (in
newest-first order) by an attack_city at minute 998, checked at minute
1000; the newest window action is not a failure, so a count started at
zero is 0. -/
def c1Actions : List PlayerAction :=
  [{ actionId := "a2", playerId := "p1", actionType := .battle_win, timestamp := 999 },
   { actionId := "a1", playerId := "p1", actionType := .attack_city, timestamp := 998 }]

/-- C1 (evidence of the code bug): under the default consecutive-failure
condition, the check fires for a player whose newest window action is a
non-failure, although the freshly recomputed newest-first count from zero
is 0, below min_failures — the source's running counter starts at 10
(trigger_engine.py line 355), so the recomputation can never block a
firing for any min_failures up to 10. -/
theorem windowFailureCounter_starts_at_ten :
    checkConsecutiveFailures 1000
        { playerId := "p1", username := "u", consecutiveFailures := 1 }
        c1Actions defaultConsecutiveFailuresTrigger = true ∧
      (freshConsecutiveFailures (c1Actions.filter (fun a =>
          (1000 : ℚ) - (defaultConsecutiveFailuresTrigger.timeWindowMinutes : ℚ) ≤
            a.timestamp)) : ℤ) < defaultConsecutiveFailuresTrigger.minFailures := by
  constructor
  · norm_num [checkConsecutiveFailures, c1Actions, defaultConsecutiveFailuresTrigger,
      freshConsecutiveFailures, sortByTimestampDesc, insertDesc,
      PlayerAction.isFailure]
    decide
  · norm_num [c1Actions, defaultConsecutiveFailuresTrigger, freshConsecutiveFailures,
      sortByTimestampDesc, insertDesc, PlayerAction.isFailure]
    decide

/-! ### C2 -/

/-- The registry of the C2 evidence: one fresh player with no recorded
actions and no failures. -/
def dmFresh : DataManager :=
  { players := [("p1", { playerId := "p1", username := "u" })], actionHistory := [] }

/-- C2 (evidence of the code bug): force_check_player returns one event for
the default consecutive-failure condition although that condition evaluates
false for the player (the guard on the evaluation result is commented out
at trigger_engine.py line 637, so every condition passing the player
filters yields an event); the per-(player, condition) fire history is not
consulted or written anywhere on this path. -/
theorem forceCheckPlayer_ignores_evaluation :
    (forceCheckPlayer 0 dmFresh sampleEnv [defaultConsecutiveFailuresTrigger] "p1").length = 1 ∧
      evaluateTriggerCondition 0 sampleEnv { playerId := "p1", username := "u" }
        (dmFresh.getPlayerActions "p1" 50 (some 120) 0)
        defaultConsecutiveFailuresTrigger = false := by
  constructor
  · norm_num [forceCheckPlayer, dmFresh, DataManager.getPlayer, lookupPlayer,
      DataManager.getPlayerActions, sortByTimestampDesc, checkPlayerFilters,
      defaultConsecutiveFailuresTrigger]
    decide
  · norm_num [evaluateTriggerCondition, dmFresh, DataManager.getPlayerActions,
      sortByTimestampDesc, checkPlayerFilters, defaultConsecutiveFailuresTrigger,
      checkConsecutiveFailures]

/-! ### C7 -/

/-- The analyzer output of the C7 evidence: a stable state and trajectory
with a deeply negative cumulative score. -/
def emoAnalysisLow : EmotionalAnalysis :=
  { currentState := some "stable", trajectory := some "stable", currentScore := -100 }

/-- An EMOTIONAL_DECLINE condition with the source defaults. -/
def emoCondition : TriggerCondition :=
  { triggerType := .emotional_decline, name := "情绪下降", description := "emotional decline" }

/-- A window holding one battle loss. -/
def oneLoss : List PlayerAction :=
  [{ actionId := "a1", playerId := "p1", actionType := .battle_lose, timestamp := 0 }]

/-- C7 (evidence of the code bug): with a non-frustrated, non-declining
analysis whose cumulative score is far below any threshold, the
EMOTIONAL_DECLINE evaluation reaches the threshold branch, which raises
(TriggerCondition defines no emotional_threshold field), and the condition
evaluates false — the low-score disjunct of the claim can never fire. -/
theorem emotionalDecline_threshold_branch_raises :
    checkEmotionalDecline oneLoss (some emoAnalysisLow) = .error () ∧
      emoAnalysisLow.currentScore < 0 ∧
      evaluateTriggerCondition 0
        { emotionalAnalysis := some emoAnalysisLow, realTimeRiskScore := 0 }
        { playerId := "p1", username := "u" } oneLoss emoCondition = false :=
  ⟨rfl, by decide, rfl⟩

/-! ### C4 -/

theorem le_listMax_left (xs : List ℚ) (x : ℚ) : x ≤ listMax x xs := by
  induction xs generalizing x with
  | nil => simp [listMax]
  | cons b bs ih =>
    have hrw : listMax x (b :: bs) = listMax (max x b) bs := rfl
    rw [hrw]
    exact le_trans (le_max_left x b) (ih (max x b))

theorem le_listMax_of_mem {y : ℚ} (xs : List ℚ) (x : ℚ) (h : y ∈ xs) :
    y ≤ listMax x xs := by
  induction xs generalizing x with
  | nil => cases h
  | cons b bs ih =>
    have hrw : listMax x (b :: bs) = listMax (max x b) bs := rfl
    rw [hrw]
    rcases List.mem_cons.mp h with rfl | h2
    · exact le_trans (le_max_right x y) (le_listMax_left bs (max x y))
    · exact ih (max x b) h2

theorem mem_le_listMax {y x : ℚ} {xs : List ℚ} (h : y ∈ x :: xs) :
    y ≤ listMax x xs := by
  rcases List.mem_cons.mp h with rfl | h2
  · exact le_listMax_left xs y
  · exact le_listMax_of_mem xs x h2

theorem shouldCheck_blocked (cd t t1 : ℚ) (h : List ℚ) (hcd : 0 < cd)
    (hth : t ∈ h) (hsc : shouldCheck cd h t1 = true) : t + cd ≤ t1 := by
  unfold shouldCheck at hsc
  rw [if_neg (not_le.mpr hcd)] at hsc
  cases h with
  | nil => exact absurd hth (List.not_mem_nil t)
  | cons x xs =>
    have hmax : listMax x xs + cd ≤ t1 := of_decide_eq_true hsc
    have hmem : t ≤ listMax x xs := mem_le_listMax hth
    linarith

theorem self_mem_stepHistory (cd : ℚ) (h : List ℚ) (te : ℚ × Bool)
    (hfire : (shouldCheck cd h te.1 && te.2) = true) :
    te.1 ∈ stepHistory cd h te := by
  unfold stepHistory cleanupHistory
  rw [if_pos hfire]
  exact List.mem_filter.mpr
    ⟨List.mem_append.mpr (Or.inr (List.mem_singleton.mpr rfl)),
     decide_eq_true (by linarith)⟩

theorem mem_stepHistory_of_mem (cd t : ℚ) (h : List ℚ) (te : ℚ × Bool)
    (hth : t ∈ h) (hkeep : te.1 - 1440 ≤ t) : t ∈ stepHistory cd h te := by
  unfold stepHistory cleanupHistory
  refine List.mem_filter.mpr ⟨?_, decide_eq_true hkeep⟩
  split
  · exact List.mem_append.mpr (Or.inl hth)
  · exact hth

theorem fireTimes_lower_bound (cd c : ℚ) (trace : List (ℚ × Bool)) :
    ∀ (h : List ℚ), (∀ te ∈ trace, c ≤ te.1) →
      ∀ g ∈ fireTimes cd h trace, c ≤ g := by
  induction trace with
  | nil => intro h _ g hg; simp [fireTimes] at hg
  | cons te rest ih =>
    intro h hts g hg
    unfold fireTimes at hg
    split at hg
    · rcases List.mem_cons.mp hg with rfl | hg2
      · exact hts te (List.mem_cons_self te rest)
      · exact ih _ (fun u hu => hts u (List.mem_cons_of_mem te hu)) g hg2
    · exact ih _ (fun u hu => hts u (List.mem_cons_of_mem te hu)) g hg

theorem fireTimes_blocked (cd t : ℚ) (hcd : 0 < cd) (hcd24 : cd ≤ 1440) :
    ∀ (trace : List (ℚ × Bool)) (h : List ℚ),
      t ∈ h → (∀ te ∈ trace, t ≤ te.1) →
      List.Pairwise (· ≤ ·) (trace.map Prod.fst) →
      ∀ g ∈ fireTimes cd h trace, t + cd ≤ g := by
  intro trace
  induction trace with
  | nil => intro h _ _ _ g hg; simp [fireTimes] at hg
  | cons te rest ih =>
    intro h hth htr hpw g hg
    have hte : t ≤ te.1 := htr te (List.mem_cons_self _ _)
    rw [List.map_cons] at hpw
    obtain ⟨hhead, htail⟩ := List.pairwise_cons.mp hpw
    have hrest_ge : ∀ u ∈ rest, te.1 ≤ u.1 :=
      fun u hu => hhead u.1 (List.mem_map_of_mem _ hu)
    unfold fireTimes at hg
    split at hg
    case isTrue hfire =>
      have hsc : shouldCheck cd h te.1 = true := by
        have hf := hfire
        simp only [Bool.and_eq_true] at hf
        exact hf.1
      have hblock : t + cd ≤ te.1 := shouldCheck_blocked cd t te.1 h hcd hth hsc
      rcases List.mem_cons.mp hg with rfl | hg2
      · exact hblock
      · have hlow := fireTimes_lower_bound cd te.1 rest (stepHistory cd h te)
          hrest_ge g hg2
        linarith
    case isFalse hfire =>
      by_cases hlt : te.1 < t + cd
      · have hkeep : te.1 - 1440 ≤ t := by linarith
        exact ih (stepHistory cd h te) (mem_stepHistory_of_mem cd t h te hth hkeep)
          (fun u hu => le_trans hte (hrest_ge u hu)) htail g hg
      · push_neg at hlt
        have hlow := fireTimes_lower_bound cd te.1 rest (stepHistory cd h te)
          hrest_ge g hg
        linarith

/-- Counterexample to C4 as stated: with a 48-hour cooldown (2880 minutes)
the pair fires at minute 0 and again at minute 1560 (26 hours later), well
before the cooldown has elapsed: the cycle at minute 1500 discards the
minute-0 fire record because the history cleanup keeps only 24 hours. -/
theorem cooldown_not_respected_beyond_24h :
    fireTimes 2880 [] [(0, true), (1500, true), (1560, true)] = [0, 1560] ∧
      (1560 : ℚ) < 0 + 2880 := by
  constructor
  · norm_num [fireTimes, stepHistory, shouldCheck, cleanupHistory, listMax]
  · norm_num

/-- C4 amended: along any nondecreasing sequence of poll cycles, once the
pair fires via the scheduled path it cannot fire again until cooldown_hours
have elapsed since the recorded fire time, provided the cooldown is
positive and at most 24 hours (1440 minutes) — the 24-hour history cleanup
makes longer cooldowns re-fire early. -/
theorem cooldown_respected_within_24h (cd : ℚ) (trace : List (ℚ × Bool))
    (h : List ℚ) (hcd : 0 < cd) (hcd24 : cd ≤ 1440)
    (hpw : List.Pairwise (· ≤ ·) (trace.map Prod.fst)) :
    List.Chain' (fun a b => a + cd ≤ b) (fireTimes cd h trace) := by
  induction trace generalizing h with
  | nil => simp [fireTimes]
  | cons te rest ih =>
    rw [List.map_cons] at hpw
    obtain ⟨hhead, htail⟩ := List.pairwise_cons.mp hpw
    have hrest_ge : ∀ u ∈ rest, te.1 ≤ u.1 :=
      fun u hu => hhead u.1 (List.mem_map_of_mem _ hu)
    unfold fireTimes
    split
    case isTrue hfire =>
      rw [List.chain'_cons']
      constructor
      · intro b hb
        exact fireTimes_blocked cd te.1 hcd hcd24 rest (stepHistory cd h te)
          (self_mem_stepHistory cd h te hfire) hrest_ge htail b
          (List.mem_of_mem_head? hb)
      · exact ih _ htail
    case isFalse hfire => exact ih _ htail

/-- Witness for the amended C4: a one-hour cooldown over cycles at minutes
0, 30, 60, all evaluating true. -/
theorem cooldown_respected_within_24h_witness :
    (0 : ℚ) < 60 ∧ (60 : ℚ) ≤ 1440 ∧
      List.Pairwise (· ≤ ·)
        (([((0 : ℚ), true), (30, true), (60, true)]).map Prod.fst) ∧
      List.Chain' (fun a b => a + 60 ≤ b)
        (fireTimes 60 [] [((0 : ℚ), true), (30, true), (60, true)]) :=
  ⟨by decide, by decide, by decide,
    cooldown_respected_within_24h 60 [((0 : ℚ), true), (30, true), (60, true)] []
      (by decide) (by decide) (by decide)⟩

end Theorems

end WMAgent
